import Mathlib

/-!
Verification of the North Hertfordshire bin-collection service
(src/app/scraper.py and src/app/main.py) against its specification.

The embedding models the Python code shallowly:
* JSON values decoded by response.json() become the inductive JVal;
* datetime objects become PyDateTime records compared lexicographically;
* Python exceptions escaping a function become an Except error value;
* network access is factored out into an Upstream record supplying the
  decoded JSON bodies, since the claims considered here all concern the
  logic that runs after a successful fetch.
Strings are treated as ASCII (Python's str.lower/str.upper/strip and the
regex digit class are Unicode-aware; none of the claims depends on
non-ASCII behaviour).
-/

namespace NorthHerts

/-- A decoded JSON value as produced by response.json() in Python.
Numbers are modelled as integers; no claim involves fractional numbers. -/
inductive JVal where
  | null
  | bool (b : Bool)
  | num (n : Int)
  | str (s : String)
  | arr (xs : List JVal)
  | obj (fields : List (String × JVal))

/-- First binding of a key in an object's field list.  JSON objects decoded
by Python have distinct keys, so first-match lookup models dict lookup. -/
def lookupField (fields : List (String × JVal)) (k : String) : Option JVal :=
  match fields with
  | [] => none
  | (k', v) :: rest => if k' = k then some v else lookupField rest k

/-- Python dict.get(k, default). -/
def pyDictGet (fields : List (String × JVal)) (k : String) (dflt : JVal) : JVal :=
  match lookupField fields k with
  | some v => v
  | none => dflt

/-- Python truthiness of a decoded JSON value. -/
def truthy : JVal → Bool
  | .null => false
  | .bool b => b
  | .num n => n != 0
  | .str s => s != ""
  | .arr xs => !xs.isEmpty
  | .obj fs => !fs.isEmpty

/-- Python str.lower() over ASCII: lower-case every character. -/
def pyLowerStr (s : String) : String := ⟨s.data.map Char.toLower⟩

/-- Python str.upper() over ASCII: upper-case every character. -/
def pyUpperStr (s : String) : String := ⟨s.data.map Char.toUpper⟩

/-- The characters Python str.strip() removes. -/
def pyIsSpace (c : Char) : Bool :=
  c = ' ' || c = '\t' || c = '\n' || c = '\r' || c = '\x0b' || c = '\x0c'

/-- Python str.strip(): drop whitespace from both ends. -/
def pyStrip (s : String) : String :=
  ⟨((s.data.dropWhile pyIsSpace).reverse.dropWhile pyIsSpace).reverse⟩

/-- Python s.replace(" ", ""): remove every space. -/
def pyRemoveSpaces (s : String) : String :=
  ⟨s.data.filter (fun c => c ≠ ' ')⟩

/-- Python s.startswith(t). -/
def pyStartsWith (s t : String) : Bool := t.data.isPrefixOf s.data

/-- A Python datetime as produced by datetime.strptime. -/
structure PyDateTime where
  year : Nat
  month : Nat
  day : Nat
  hour : Nat
  minute : Nat
  second : Nat
deriving Repr, DecidableEq

/-- Mixed-radix encoding of a datetime.  On the values strptime can
produce (month <= 12, day <= 31, hour <= 23, minute, second <= 59) it is
strictly monotone for the lexicographic datetime order, so comparing codes
models Python's datetime comparison. -/
def PyDateTime.code (d : PyDateTime) : Nat :=
  ((((d.year * 13 + d.month) * 32 + d.day) * 24 + d.hour) * 60 + d.minute) * 60 + d.second

/-- Python's d1 <= d2 on datetimes, via the mixed-radix code. -/
def dtLe (a b : PyDateTime) : Bool := a.code ≤ b.code

/-- The component ranges strptime guarantees below the year (the year is
the most significant component, so it needs no bound for the mixed-radix
code to order datetimes correctly). -/
def PyDateTime.InBounds (d : PyDateTime) : Prop :=
  1 ≤ d.month ∧ d.month ≤ 12 ∧ 1 ≤ d.day ∧ d.day ≤ 31 ∧
    d.hour ≤ 23 ∧ d.minute ≤ 59 ∧ d.second ≤ 59

/-- The true (lexicographic) non-strict order on datetimes, as Python
compares datetime objects. -/
def dtLexLe (a b : PyDateTime) : Prop :=
  a.year < b.year ∨ (a.year = b.year ∧
    (a.month < b.month ∨ (a.month = b.month ∧
      (a.day < b.day ∨ (a.day = b.day ∧
        (a.hour < b.hour ∨ (a.hour = b.hour ∧
          (a.minute < b.minute ∨ (a.minute = b.minute ∧
            a.second ≤ b.second)))))))))

/-- The leading run of ASCII digits of a character list, and the rest. -/
def takeDigits : List Char → List Char × List Char
  | [] => ([], [])
  | c :: cs =>
    if c.isDigit then
      let p := takeDigits cs
      (c :: p.1, p.2)
    else ([], c :: cs)

/-- Numeric value of a digit run. -/
def digitsToNat (ds : List Char) : Nat :=
  ds.foldl (fun n c => n * 10 + (c.toNat - 48)) 0

/-- Day count of a month, with the Gregorian leap rule (datetime's
calendar). -/
def daysInMonth (y m : Nat) : Nat :=
  if m = 2 then
    if (y % 4 = 0 ∧ y % 100 ≠ 0) ∨ y % 400 = 0 then 29 else 28
  else if m = 4 ∨ m = 6 ∨ m = 9 ∨ m = 11 then 30 else 31

/-- One numeric field of the strptime regex: a run of exactly one or two
digits whose value lies in [lo, hi] (the union of the regex alternatives
CPython generates for the field), returning the value and the unconsumed
rest.  A longer digit run fails the whole match, since the literal
separator that follows can never match a digit. -/
def readField (lo hi : Nat) (cs : List Char) : Option (Nat × List Char) :=
  match takeDigits cs with
  | (ds, rest) =>
    if ds.length = 0 ∨ 2 < ds.length then none
    else if digitsToNat ds < lo ∨ hi < digitsToNat ds then none
    else some (digitsToNat ds, rest)

/-- The %Y field: exactly four digits. -/
def readYear (cs : List Char) : Option (Nat × List Char) :=
  match takeDigits cs with
  | (ds, rest) => if ds.length ≠ 4 then none else some (digitsToNat ds, rest)

/-- One literal separator character; the format regex is compiled
IGNORECASE, so the separator may match either of two characters
(relevant only for the T). -/
def readSep (a b : Char) (cs : List Char) : Option (List Char) :=
  match cs with
  | [] => none
  | c :: rest => if c ≠ a ∧ c ≠ b then none else some rest

/-- datetime.strptime(s, "%Y-%m-%dT%H:%M:%S") as CPython implements it:
the format string is compiled to a regex with %Y = four digits, %m one
or two digits valued 1..12, %d one or two digits valued 1..31, %H up to
23, %M up to 59, %S up to 61, the literal separators in between
(IGNORECASE, so the T also matches t), matched against the whole string;
the datetime constructor then rejects year 0, invalid calendar days and
seconds above 59.  Returns none where Python raises ValueError. -/
def strptimeNH (s : String) : Option PyDateTime :=
  (readYear s.data).bind fun py =>
  (readSep '-' '-' py.2).bind fun r2 =>
  (readField 1 12 r2).bind fun pm =>
  (readSep '-' '-' pm.2).bind fun r4 =>
  (readField 1 31 r4).bind fun pd =>
  (readSep 'T' 't' pd.2).bind fun r6 =>
  (readField 0 23 r6).bind fun ph =>
  (readSep ':' ':' ph.2).bind fun r8 =>
  (readField 0 59 r8).bind fun pmin =>
  (readSep ':' ':' pmin.2).bind fun r10 =>
  (readField 0 61 r10).bind fun ps =>
  if ps.2 ≠ [] then none else
  if py.1 < 1 then none else
  if daysInMonth py.1 pm.1 < pd.1 then none else
  if 59 < ps.1 then none else
  some ⟨py.1, pm.1, pd.1, ph.1, pmin.1, ps.1⟩

/-- One bin collection event (class BinCollection in scraper.py). -/
structure BinCollection where
  bin_type : String
  collection_date : PyDateTime
deriving Repr, DecidableEq

/-- One address record (class Address in scraper.py). -/
structure Address where
  uprn : String
  address : String
  postcode : String
deriving Repr, DecidableEq

/-- A Python exception escaping an expression.  Only the three kinds the
parsing code can raise are modelled. -/
inductive PyExn where
  | attributeError
  | valueError
  | typeError
deriving Repr, DecidableEq

/-- datetime.strptime with our fixed format applied to an arbitrary decoded
JSON value: a non-string first argument raises TypeError, an unparsable
string raises ValueError. -/
def pyStrptime (v : JVal) : Except PyExn PyDateTime :=
  match v with
  | .str s =>
    match strptimeNH s with
    | some d => .ok d
    | none => .error .valueError
  | _ => .error .typeError

/-- The body of the per-slot try block in get_collections
(scraper.py lines 196-212): read collectionDate with default "", skip if
falsy; read containerDescription with default "Unknown"; .lower() it (an
AttributeError if it is not a string) and skip the excluded bin type
"food caddy"; strptime the date.  A non-dict container raises
AttributeError at the first .get call. -/
def slotBody (container : JVal) : Except PyExn (Option BinCollection) :=
  match container with
  | .obj cf =>
    let date_str := pyDictGet cf "collectionDate" (.str "")
    if truthy date_str = false then .ok none
    else
      match pyDictGet cf "containerDescription" (.str "Unknown") with
      | .str bt =>
        if pyLowerStr bt = "food caddy" then .ok none
        else
          match pyStrptime date_str with
          | .ok d => .ok (some ⟨bt, d⟩)
          | .error e => .error e
      | _ => .error .attributeError
  | _ => .error .attributeError

/-- The try/except around the slot body catches only ValueError and
TypeError (scraper.py line 213) and skips the slot; an AttributeError
propagates. -/
def processSlot (container : JVal) : Except PyExn (Option BinCollection) :=
  match slotBody container with
  | .error .valueError => .ok none
  | .error .typeError => .ok none
  | r => r

/-- The field name of slot i. -/
def containerKey (i : Nat) : String :=
  "container" ++ toString i ++ "CollectionDetails"

/-- The loop of scraper.py lines 189-214 over the given slot indices:
look the slot up in waste_data (dict.get returning None both for an
absent key and a JSON null value, both of which skip the slot), process
present slots in order, accumulating the surviving events.  A non-dict
waste_data raises AttributeError at the first lookup. -/
def collectSlots (wd : JVal) : List Nat → Except PyExn (List BinCollection)
  | [] => .ok []
  | i :: rest =>
    match wd with
    | .obj fs =>
      match pyDictGet fs (containerKey i) .null with
      | .null => collectSlots wd rest
      | c => do
        let ev ← processSlot c
        let tail ← collectSlots wd rest
        match ev with
        | some e => pure (e :: tail)
        | none => pure tail
    | _ => .error .attributeError

/-- collections.sort(key=lambda x: x.collection_date): Python's list.sort
is a stable sort ascending by the key; mergeSort with a total transitive
comparison computes exactly the stable sort. -/
def sortByDate (l : List BinCollection) : List BinCollection :=
  l.mergeSort (fun a b => dtLe a.collection_date b.collection_date)

/-- The parse section of get_collections (scraper.py lines 182-219)
applied to the decoded collections response body: read
wasteCollectionDates with default empty dict, examine slots 1 through 8
in order, sort the surviving events by date. -/
def parse_collections (data : JVal) : Except PyExn (List BinCollection) :=
  match data with
  | .obj dfs => do
    let wd := pyDictGet dfs "wasteCollectionDates" (.obj [])
    let evs ← collectSlots wd [1, 2, 3, 4, 5, 6, 7, 8]
    pure (sortByDate evs)
  | _ => .error .attributeError

/-- _normalize_postcode (scraper.py lines 254-257). -/
def normalize_postcode (p : String) : String :=
  pyRemoveSpaces (pyStrip (pyUpperStr p))

/-- The scan loop of find_uprn (scraper.py lines 130-136): first address
whose lower-cased display text starts with the prepared house number
followed by a space or a comma. -/
def findUprnLoop (hn : String) : List Address → Option String
  | [] => none
  | a :: rest =>
    if pyStartsWith (pyLowerStr a.address) (hn ++ " ")
        || pyStartsWith (pyLowerStr a.address) (hn ++ ",") then some a.uprn
    else findUprnLoop hn rest

/-- find_uprn (scraper.py lines 116-136), factored over the address list
the (already normalized) postcode lookup returned: lower-case and strip
the house number, then scan. -/
def find_uprn (addresses : List Address) (house_number : String) : Option String :=
  findUprnLoop (pyStrip (pyLowerStr house_number)) addresses

/-- The decoded bodies a successful upstream round trip yields:
addressesFor is indexed by the normalized postcode (lookup_addresses
normalizes before querying) and holds the parsed Address records;
collectionsFor is indexed by the UPRN put in the URL.  The claims settled
here all concern the logic after a successful fetch, so network failures
(UpstreamUnavailable) are not modelled. -/
structure Upstream where
  addressesFor : String → List Address
  collectionsFor : String → JVal

/-- The failures get_collections can produce.  The source raises a single
exception class NorthHertsBinCollectionError; the constructors record the
raise site, matching the specification's error taxonomy, together with
the exact message.  uncaught records a raw Python exception escaping the
method. -/
inductive NHError where
  | invalidRequest (msg : String)
  | addressNotFound (msg : String)
  | invalidIdentifier (msg : String)
  | uncaught (e : PyExn)
deriving Repr, DecidableEq

/-- re.match(r"^\d+$", s) is not None.  Python's $ matches at the end of
the string or just before a newline at the end of the string, so a
nonempty digit run optionally followed by one trailing newline matches. -/
def reMatchAllDigits (s : String) : Bool :=
  let cs := s.data
  let core := if cs.getLast? = some '\n' then cs.dropLast else cs
  !core.isEmpty && core.all Char.isDigit

/-- Python truthiness of an optional-string parameter (None and "" are
both falsy). -/
def optTruthy : Option String → Bool
  | none => false
  | some s => s != ""

/-- get_collections (scraper.py lines 138-219).  Resolution: a falsy uprn
requires truthy postcode and house_number, else InvalidRequest; then
find_uprn over the addresses for the normalized postcode, a falsy result
(None, or an empty uprn string on the matched record) giving
AddressNotFound with the raw house number and postcode in the message.
Validation: the digits regex, else InvalidIdentifier.  Then fetch and
parse; an exception escaping the parse loop escapes the method. -/
def get_collections (up : Upstream) (uprn postcode house_number : Option String) :
    Except NHError (List BinCollection) := do
  let uprnVal ←
    if optTruthy uprn = false then
      if optTruthy postcode = false ∨ optTruthy house_number = false then
        Except.error (.invalidRequest
          "Either UPRN or both postcode and house_number must be provided")
      else
        let pc := postcode.getD ""
        let hn := house_number.getD ""
        match find_uprn (up.addressesFor (normalize_postcode pc)) hn with
        | some u =>
          if u = "" then
            Except.error (.addressNotFound ("Could not find address: " ++ hn ++ ", " ++ pc))
          else pure u
        | none =>
          Except.error (.addressNotFound ("Could not find address: " ++ hn ++ ", " ++ pc))
    else
      pure (uprn.getD "")
  if reMatchAllDigits uprnVal = false then
    Except.error (.invalidIdentifier ("Invalid UPRN format: " ++ uprnVal))
  else
    match parse_collections (up.collectionsFor uprnVal) with
    | .ok evs => pure evs
    | .error e => Except.error (.uncaught e)

/-- The scan loop of get_next_collection (scraper.py lines 231-235):
first event whose collection_date >= now. -/
def nextLoop (now : PyDateTime) : List BinCollection → Option BinCollection
  | [] => none
  | c :: rest => if dtLe now c.collection_date then some c else nextLoop now rest

/-- get_next_collection (scraper.py lines 221-235), with now passed
explicitly (the source reads datetime.now()). -/
def get_next_collection (up : Upstream) (uprn postcode house_number : Option String)
    (now : PyDateTime) : Except NHError (Option BinCollection) := do
  let collections ← get_collections up uprn postcode house_number
  pure (nextLoop now collections)

/-- The state of SimpleCache (main.py lines 31-48): the dict becomes an
association list with unique keys (set replaces, del removes), timestamps
are integer seconds. -/
structure SimpleCache (V : Type) where
  ttl : Int
  cache : List (String × V × Int)

/-- Lookup of a key in the cache dict. -/
def cacheLookup {V : Type} (st : List (String × V × Int)) (k : String) : Option (V × Int) :=
  match st with
  | [] => none
  | (k', v, ts) :: rest => if k' = k then some (v, ts) else cacheLookup rest k

/-- del cache[key] (and the replacement part of assignment). -/
def cacheErase {V : Type} (st : List (String × V × Int)) (k : String) :
    List (String × V × Int) :=
  st.filter (fun e => e.1 ≠ k)

/-- SimpleCache.get (main.py lines 36-42), with now explicit: a present
fresh entry is returned; a present expired entry is deleted and a miss
returned; an absent key is a miss.  Returns the result and the
possibly-updated cache state. -/
def SimpleCache.get {V : Type} (c : SimpleCache V) (k : String) (now : Int) :
    Option V × SimpleCache V :=
  match cacheLookup c.cache k with
  | some (v, ts) =>
    if now - ts < c.ttl then (some v, c)
    else (none, ⟨c.ttl, cacheErase c.cache k⟩)
  | none => (none, c)

/-- SimpleCache.set (main.py lines 44-45), with now explicit. -/
def SimpleCache.set {V : Type} (c : SimpleCache V) (k : String) (v : V) (now : Int) :
    SimpleCache V :=
  ⟨c.ttl, (k, v, now) :: cacheErase c.cache k⟩

/-- str(x) for the optional query parameters inside the f-string key
(None renders as the literal "None"). -/
def pyStrOfOpt : Option String → String
  | none => "None"
  | some s => s

/-- The cache key of /api/addresses (main.py line 144): the raw query
parameter, not normalized. -/
def addresses_cache_key (postcode : String) : String :=
  "addresses:" ++ postcode

/-- The cache key of /api/collections (main.py line 179):
f-string over uprn when truthy, else over the raw postcode and
house_number. -/
def collections_cache_key (uprn postcode house_number : Option String) : String :=
  "collections:" ++
    (if optTruthy uprn then uprn.getD ""
     else pyStrOfOpt postcode ++ ":" ++ pyStrOfOpt house_number)

/-!  Specification-side definitions, written from the spec's words, used
only on the right-hand side of refinement statements. -/

/-- The spec's abstraction of one present container slot (spec section 9:
a list of slot index and optional container data; section 6: each container
optionally carries a collectionDate string and a containerDescription
string). -/
structure ContainerData where
  date? : Option String
  desc? : Option String
deriving Repr, DecidableEq

/-- One slot's event as the spec words it (section 4.3): an empty (or
absent) date-time string skips the slot; a date-time string the fixed
format cannot parse skips the slot; the description, defaulted to
"Unknown" when absent, becomes binType; binType case-insensitively equal
to "food caddy" skips the slot. -/
def specSlotEvent (c : ContainerData) : Option BinCollection :=
  let d := c.date?.getD ""
  if d = "" then none
  else
    match strptimeNH d with
    | none => none
    | some dt =>
      let bt := c.desc?.getD "Unknown"
      if pyLowerStr bt = "food caddy" then none
      else some ⟨bt, dt⟩

/-- The slot indices the parser examines, in order. -/
def slotIndices : List Nat := [1, 2, 3, 4, 5, 6, 7, 8]

/-- The parser as the spec words it (section 4.3): per-slot events in
ascending slot-index order, stably sorted ascending by date. -/
def specParse (slots : List (Option ContainerData)) : List BinCollection :=
  sortByDate (slots.filterMap (fun c => c.bind specSlotEvent))

/-- The slot's decoded JSON value realises the given abstract content:
an absent slot is JSON null (dict.get also returns None for an absent
key, and the embedding encodes both as null); a present slot is an object
whose two relevant fields, when present, are strings. -/
def SlotRep (j : JVal) : Option ContainerData → Prop
  | none => j = .null
  | some c => ∃ cf, j = .obj cf ∧
      lookupField cf "collectionDate" = c.date?.map JVal.str ∧
      lookupField cf "containerDescription" = c.desc?.map JVal.str

/-- The resolver's matching rule as the spec words it (section 4.2):
lower-cased display text starts with the lower-cased trimmed house number
followed by a space or a comma. -/
def specUprnMatch (houseNumber : String) (a : Address) : Bool :=
  let hn := pyStrip (pyLowerStr houseNumber)
  pyStartsWith (pyLowerStr a.address) (hn ++ " ")
    || pyStartsWith (pyLowerStr a.address) (hn ++ ",")

/-- s contains sub as a contiguous substring. -/
def strContains (s sub : String) : Prop := ∃ a b, s = a ++ sub ++ b

/-!  Helper lemmas. -/

theorem dtLe_trans (a b c : BinCollection)
    (h1 : dtLe a.collection_date b.collection_date)
    (h2 : dtLe b.collection_date c.collection_date) :
    dtLe a.collection_date c.collection_date := by
  simp only [dtLe, decide_eq_true_eq] at *
  omega

theorem dtLe_total (a b : BinCollection) :
    dtLe a.collection_date b.collection_date || dtLe b.collection_date a.collection_date := by
  simp only [dtLe, Bool.or_eq_true, decide_eq_true_eq]
  omega

theorem daysInMonth_le_31 (y m : Nat) : daysInMonth y m ≤ 31 := by
  unfold daysInMonth
  split <;> [split <;> omega; split <;> omega]

/-- A parsed numeric field lies in the range the regex admits. -/
theorem readField_bounds {lo hi v : Nat} {cs rest : List Char}
    (h : readField lo hi cs = some (v, rest)) : lo ≤ v ∧ v ≤ hi := by
  unfold readField at h
  repeat' split at h
  all_goals cases h
  constructor <;> omega

/-- Every datetime strptime produces has its sub-year components in the
ranges the mixed-radix code requires. -/
theorem strptimeNH_inBounds {s : String} {d : PyDateTime}
    (h : strptimeNH s = some d) : d.InBounds := by
  unfold strptimeNH at h
  simp only [Option.bind_eq_some] at h
  obtain ⟨⟨yv, r1⟩, hy, r2, hs1, ⟨mv, r3⟩, hm, r4, hs2, ⟨dv, r5⟩, hd, r6, hs3,
    ⟨hv, r7⟩, hh, r8, hs4, ⟨miv, r9⟩, hmi, r10, hs5, ⟨sv, r11⟩, hsv, hfin⟩ := h
  have hbm := readField_bounds hm
  have hbd := readField_bounds hd
  have hbh := readField_bounds hh
  have hbmi := readField_bounds hmi
  have hbs := readField_bounds hsv
  simp only at hfin
  repeat' split at hfin
  all_goals cases hfin
  refine ⟨hbm.1, hbm.2, hbd.1, hbd.2, hbh.2, hbmi.2, ?_⟩
  show sv ≤ 59
  omega

/-- On datetimes whose sub-year components are in range, the mixed-radix
code comparison coincides with the lexicographic datetime order. -/
theorem dtLe_iff_dtLexLe {a b : PyDateTime} (ha : a.InBounds) (hb : b.InBounds) :
    dtLe a b = true ↔ dtLexLe a b := by
  obtain ⟨ha1, ha2, ha3, ha4, ha5, ha6, ha7⟩ := ha
  obtain ⟨hb1, hb2, hb3, hb4, hb5, hb6, hb7⟩ := hb
  simp only [dtLe, PyDateTime.code, dtLexLe, decide_eq_true_eq]
  constructor <;> intro h <;> omega

/-- An event the spec's per-slot rule produces carries a strptime date,
hence one with in-range components. -/
theorem specSlotEvent_inBounds {c : ContainerData} {e : BinCollection}
    (h : specSlotEvent c = some e) : e.collection_date.InBounds := by
  unfold specSlotEvent at h
  by_cases hd : c.date?.getD "" = ""
  · simp [hd] at h
  · rcases hp : strptimeNH (c.date?.getD "") with _ | dt
    · simp [hd, hp] at h
    · by_cases hc : pyLowerStr (c.desc?.getD "Unknown") = "food caddy" <;>
        simp [hd, hp, hc] at h
      rw [← h]
      exact strptimeNH_inBounds hp

/-- Every event in the spec parser's output carries a strptime date,
whose components are therefore in range. -/
theorem specParse_mem_inBounds {slots : List (Option ContainerData)} {e : BinCollection}
    (he : e ∈ specParse slots) : e.collection_date.InBounds := by
  unfold specParse sortByDate at he
  rw [List.mem_mergeSort] at he
  rcases List.mem_filterMap.mp he with ⟨c, -, hc⟩
  rcases c with _ | cd
  · simp at hc
  · exact specSlotEvent_inBounds (by simpa using hc)

/-- The code's per-slot processing agrees with the spec's per-slot rule on
every slot value that realises well-shaped container data. -/
theorem processSlot_rep {j : JVal} {c : ContainerData} (h : SlotRep j (some c)) :
    processSlot j = .ok (specSlotEvent c) := by
  obtain ⟨cf, rfl, hd, hb⟩ := h
  rcases c with ⟨d?, b?⟩
  simp only at hd hb
  rcases d? with _ | s
  · simp [processSlot, slotBody, specSlotEvent, pyDictGet, hd, truthy]
  · by_cases hs : s = ""
    · subst hs
      simp [processSlot, slotBody, specSlotEvent, pyDictGet, hd, truthy]
    · have hcaddy : (pyLowerStr "Unknown" = "food caddy") = False := by
        simp only [eq_iff_iff, iff_false]
        decide
      rcases hp : strptimeNH s with _ | dt <;> rcases b? with _ | t
      · simp [processSlot, slotBody, specSlotEvent, pyDictGet, hd, hb, truthy, hs,
          pyStrptime, hp, hcaddy]
      · by_cases hc : pyLowerStr t = "food caddy" <;>
          simp [processSlot, slotBody, specSlotEvent, pyDictGet, hd, hb, truthy, hs,
            pyStrptime, hp, hc]
      · simp [processSlot, slotBody, specSlotEvent, pyDictGet, hd, hb, truthy, hs,
          pyStrptime, hp, hcaddy]
      · by_cases hc : pyLowerStr t = "food caddy" <;>
          simp [processSlot, slotBody, specSlotEvent, pyDictGet, hd, hb, truthy, hs,
            pyStrptime, hp, hc]

/-- The code's slot loop agrees with a filterMap of the spec's per-slot
rule over the slot indices, whenever every examined slot realises
well-shaped container data. -/
theorem collectSlots_rep (fs : List (String × JVal)) (sv : Nat → Option ContainerData) :
    ∀ keys : List Nat,
      (∀ i ∈ keys, SlotRep (pyDictGet fs (containerKey i) .null) (sv i)) →
      collectSlots (.obj fs) keys =
        .ok (keys.filterMap (fun i => (sv i).bind specSlotEvent))
  | [], _ => rfl
  | i :: rest, h => by
    have hi := h i (by simp)
    have hrest := collectSlots_rep fs sv rest (fun k hk => h k (by simp [hk]))
    rcases hsv : sv i with _ | c
    · rw [hsv] at hi
      simp only [SlotRep] at hi
      simp [collectSlots, hi, hrest, hsv]
    · rw [hsv] at hi
      have hps := processSlot_rep hi
      obtain ⟨cf, hcf, -, -⟩ := hi
      rw [hcf] at hps
      rcases hev : specSlotEvent c with _ | e <;>
        simp [collectSlots, hcf, hrest, hsv, hps, hev, bind, Except.bind, pure, Except.pure]

/-- The whole parse section agrees with the spec parser over the slot
contents, whenever the wasteCollectionDates object's eight slot keys all
realise well-shaped container data (any other keys are unconstrained). -/
theorem parse_collections_rep (dfs fs : List (String × JVal)) (sv : Nat → Option ContainerData)
    (hwd : pyDictGet dfs "wasteCollectionDates" (.obj []) = .obj fs)
    (h : ∀ i ∈ slotIndices, SlotRep (pyDictGet fs (containerKey i) .null) (sv i)) :
    parse_collections (.obj dfs) = .ok (specParse (slotIndices.map sv)) := by
  have hcs := collectSlots_rep fs sv slotIndices h
  simp only [parse_collections, hwd, slotIndices] at hcs ⊢
  simp only [hcs, specParse, bind, Except.bind, pure, Except.pure]
  rfl

/-- The output of the sort is pairwise ascending by date. -/
theorem sortByDate_sorted (l : List BinCollection) :
    (sortByDate l).Pairwise (fun a b => dtLe a.collection_date b.collection_date = true) :=
  List.sorted_mergeSort (fun a b c => dtLe_trans a b c) (fun a b => dtLe_total a b) l

/-- Stability of the sort: a date-sorted sublist of the input is a
sublist of the output. -/
theorem sortByDate_stable {c l : List BinCollection}
    (hp : c.Pairwise (fun a b => dtLe a.collection_date b.collection_date = true))
    (hs : c.Sublist l) : c.Sublist (sortByDate l) :=
  List.sublist_mergeSort (fun a b c => dtLe_trans a b c) (fun a b => dtLe_total a b) hp hs

/-- Any in-range index pair in ascending order is a sublist of the slot
index list. -/
theorem pair_sublist_slotIndices {i j : Nat} (h1 : 1 ≤ i) (h2 : i < j) (h3 : j ≤ 8) :
    List.Sublist [i, j] slotIndices := by
  have h4 : i ≤ 7 := by omega
  interval_cases i <;> interval_cases j <;> decide

/-- The scan of get_next_collection misses exactly when every event is
strictly before now. -/
theorem nextLoop_eq_none_iff (now : PyDateTime) (ls : List BinCollection) :
    nextLoop now ls = none ↔ ∀ c ∈ ls, dtLe now c.collection_date = false := by
  induction ls with
  | nil => simp [nextLoop]
  | cons a rest ih =>
    by_cases ha : dtLe now a.collection_date <;> simp [nextLoop, ha, ih]

/-- The scan of get_next_collection returns the first event at or after
now: everything before it in the sequence is strictly earlier than now. -/
theorem nextLoop_eq_some (now : PyDateTime) (ls : List BinCollection) (c : BinCollection)
    (h : nextLoop now ls = some c) :
    ∃ pre post, ls = pre ++ c :: post ∧
      (∀ x ∈ pre, dtLe now x.collection_date = false) ∧
      dtLe now c.collection_date = true := by
  induction ls with
  | nil => simp [nextLoop] at h
  | cons a rest ih =>
    by_cases ha : dtLe now a.collection_date
    · simp only [nextLoop, ha, if_pos, Option.some.injEq] at h
      exact ⟨[], rest, by simp [← h], by simp, by simp [← h, ha]⟩
    · simp only [nextLoop, ha, if_neg, Bool.false_eq_true, not_false_iff, if_false] at h
      obtain ⟨pre, post, hls, hpre, hc⟩ := ih h
      refine ⟨a :: pre, post, by simp [hls], ?_, hc⟩
      intro x hx
      rcases List.mem_cons.mp hx with rfl | hx
      · simpa using ha
      · exact hpre x hx

/-- The scan loop of find_uprn is the first-match rule of the spec. -/
theorem findUprnLoop_eq_find (hn : String) (addrs : List Address) :
    findUprnLoop hn addrs =
      (addrs.find? (fun a => pyStartsWith (pyLowerStr a.address) (hn ++ " ")
        || pyStartsWith (pyLowerStr a.address) (hn ++ ","))).map Address.uprn := by
  induction addrs with
  | nil => rfl
  | cons a rest ih =>
    by_cases ha : (pyStartsWith (pyLowerStr a.address) (hn ++ " ")
        || pyStartsWith (pyLowerStr a.address) (hn ++ ",")) = true <;>
      simp [findUprnLoop, List.find?, ha, ih]

/-- Sorting an already date-sorted list changes nothing. -/
theorem sortByDate_of_sorted {l : List BinCollection}
    (h : l.Pairwise (fun a b => dtLe a.collection_date b.collection_date = true)) :
    sortByDate l = l :=
  List.mergeSort_of_sorted h

/-- Appending to a fixed string on the left is injective. -/
theorem string_append_left_inj (p s t : String) : p ++ s = p ++ t ↔ s = t := by
  constructor
  · intro h
    have hd : (p ++ s).data = (p ++ t).data := by rw [h]
    simp only [String.data_append] at hd
    cases s; cases t
    exact congrArg String.mk (List.append_cancel_left hd)
  · intro h; rw [h]

/-- A slot whose date string the fixed format cannot parse never yields an
event under the spec's per-slot rule. -/
theorem specSlotEvent_eq_none {c : ContainerData}
    (hbad : strptimeNH (c.date?.getD "") = none) : specSlotEvent c = none := by
  unfold specSlotEvent
  by_cases hd : c.date?.getD "" = "" <;> simp [hd, hbad]

/-- A truthy identifier that passes the validation regex proceeds straight
to the fetch-and-parse stage. -/
theorem get_collections_fetch (up : Upstream) (s : String) (pc hn : Option String)
    (hs : s ≠ "") (hm : reMatchAllDigits s = true) :
    get_collections up (some s) pc hn =
      (parse_collections (up.collectionsFor s)).mapError NHError.uncaught := by
  have ht : optTruthy (some s) = true := by simp [optTruthy, hs]
  rcases hp : parse_collections (up.collectionsFor s) with e | evs <;>
    simp [get_collections, ht, hm, hp, Except.mapError, bind, Except.bind, pure, Except.pure]

/-!  Claim theorems. -/

/-- C1, counterexample: the cache keys are built from the raw query
parameters, so two queries whose postcodes are equal after normalization
but spelled differently produce different cache keys (for the collections
key and for the addresses key alike), contradicting the claimed
invariant that semantically equal queries share a key. -/
theorem cache_key_normalization_cex :
    normalize_postcode "SG6 1JF" = normalize_postcode "sg61jf" ∧
    collections_cache_key none (some "SG6 1JF") (some "1") ≠
      collections_cache_key none (some "sg61jf") (some "1") ∧
    addresses_cache_key "SG6 1JF" ≠ addresses_cache_key "sg61jf" :=
  ⟨by decide, by decide, by decide⟩

/-- C1, amended: the cache key is computed from the raw query parameters.
Two queries with the same (truthy) identifier share a key whatever their
other parameters; the addresses key is injective in the raw postcode, and
the collections key for a resolution query is built from the raw postcode
and house number, so only raw-equal parameter pairs share keys and
normalization-equal but differently spelled postcodes do not hit each
other's cache entries. -/
theorem cache_key_raw_params (u : String) (pc hn pc' hn' : Option String) (p p' : String) :
    (u ≠ "" → collections_cache_key (some u) pc hn = collections_cache_key (some u) pc' hn') ∧
    (addresses_cache_key p = addresses_cache_key p' ↔ p = p') ∧
    collections_cache_key none pc hn =
      "collections:" ++ (pyStrOfOpt pc ++ ":" ++ pyStrOfOpt hn) := by
  refine ⟨?_, string_append_left_inj _ _ _, ?_⟩
  · intro hu
    have ht : optTruthy (some u) = true := by simp [optTruthy, hu]
    simp [collections_cache_key, ht]
  · rfl

/-- Witness for the amended C1 at concrete inputs. -/
theorem cache_key_raw_params_witness :
    ("123" ≠ "" ∧
      collections_cache_key (some "123") (some "SG6 1JF") (some "1") =
        collections_cache_key (some "123") (some "sg61jf") none) ∧
    (addresses_cache_key "SG6 1JF" = addresses_cache_key "SG6 1JF" ↔ "SG6 1JF" = "SG6 1JF") :=
  ⟨⟨by decide,
    (cache_key_raw_params "123" (some "SG6 1JF") (some "1") (some "sg61jf") none
      "SG6 1JF" "SG6 1JF").1 (by decide)⟩,
    (cache_key_raw_params "123" (some "SG6 1JF") (some "1") (some "sg61jf") none
      "SG6 1JF" "SG6 1JF").2.1⟩

/-- C6: find_uprn returns the identifier of the first address, in the
order of the given list, whose lower-cased display text starts with the
lower-cased trimmed house number followed by a space or by a comma, and
returns none - without raising - exactly when no address matches. -/
theorem find_uprn_first_match_spec (addrs : List Address) (houseNumber : String) :
    find_uprn addrs houseNumber =
      ((addrs.find? (specUprnMatch houseNumber)).map Address.uprn) ∧
    (find_uprn addrs houseNumber = none ↔
      ∀ a ∈ addrs, specUprnMatch houseNumber a = false) := by
  have heq : find_uprn addrs houseNumber =
      ((addrs.find? (specUprnMatch houseNumber)).map Address.uprn) :=
    findUprnLoop_eq_find (pyStrip (pyLowerStr houseNumber)) addrs
  refine ⟨heq, ?_⟩
  rw [heq]
  simp [List.find?_eq_none, Option.map_eq_none']

/-- What the validation regex accepts: a nonempty digit string, or a
nonempty digit string followed by one trailing newline. -/
theorem reMatchAllDigits_iff (s : String) :
    reMatchAllDigits s = true ↔
      ((s.data ≠ [] ∧ ∀ c ∈ s.data, c.isDigit) ∨
        (∃ t : List Char, s.data = t ++ ['\n'] ∧ t ≠ [] ∧ ∀ c ∈ t, c.isDigit)) := by
  have hnl : ('\n').isDigit = false := by decide
  rcases hl : s.data.getLast? with _ | c
  · have hnil : s.data = [] := List.getLast?_eq_none_iff.mp hl
    simp [reMatchAllDigits, hnil]
  · by_cases hc : c = '\n'
    · subst hc
      obtain ⟨t, ht⟩ := List.getLast?_eq_some_iff.mp hl
      rw [ht] at hl ⊢
      simp only [reMatchAllDigits, ht, List.getLast?_concat, if_pos, List.dropLast_concat,
        Bool.and_eq_true, Bool.not_eq_true', List.isEmpty_eq_false, List.all_eq_true,
        ne_eq, decide_eq_true_eq]
      constructor
      · rintro ⟨hne, hall⟩
        exact Or.inr ⟨t, rfl, by simpa using hne, hall⟩
      · rintro (⟨-, hall⟩ | ⟨t', heq, hne, hall⟩)
        · have := hall '\n' (by simp)
          simp [hnl] at this
        · have : t = t' := by
            have := List.append_cancel_right heq
            exact this
          subst this
          exact ⟨by simpa using hne, hall⟩
    · have hmem : c ∈ s.data := List.mem_of_getLast?_eq_some hl
      have hne : s.data ≠ [] := by
        intro h
        rw [h] at hmem
        simp at hmem
      have hif : (s.data.getLast? = some '\n') = False := by
        simp [hl, hc]
      simp only [reMatchAllDigits, hif, if_false, Bool.and_eq_true, Bool.not_eq_true',
        List.isEmpty_eq_false, List.all_eq_true, ne_eq, decide_eq_true_eq]
      constructor
      · rintro ⟨-, hall⟩
        exact Or.inl ⟨hne, hall⟩
      · rintro (⟨-, hall⟩ | ⟨t', heq, -, -⟩)
        · exact ⟨by simpa using hne, hall⟩
        · rw [heq, List.getLast?_concat] at hl
          cases hl
          exact absurd rfl hc

/-- C2, counterexample: the identifier string built from "123" and a
trailing newline contains a non-digit character, yet validation passes
and the flow proceeds to fetch and parse (here an empty collections
body, so an ok result, not the claimed InvalidIdentifier failure); and an
identifier that resolves to the empty string fails with the
AddressNotFound error, not the claimed InvalidIdentifier. -/
theorem uprn_validation_cex :
    (∃ c ∈ ("123\n").data, ¬ c.isDigit) ∧
    get_collections ⟨fun _ => [], fun _ => .obj []⟩ (some "123\n") none none =
      .ok [] ∧
    get_collections ⟨fun _ => [⟨"", "1 High Street", "SG61JF"⟩], fun _ => .obj []⟩
        none (some "SG6 1JF") (some "1") =
      .error (.addressNotFound "Could not find address: 1, SG6 1JF") := by
  have hnil : sortByDate [] = [] := by simp [sortByDate]
  refine ⟨⟨'\n', by decide, by decide⟩, ?_, by rfl⟩
  have h1 : get_collections ⟨fun _ => [], fun _ => .obj []⟩ (some "123\n") none none =
      .ok (sortByDate []) := rfl
  rw [h1, hnil]

/-- C2, amended: an identifier consisting only of decimal digits passes
validation and the call proceeds to fetch and parse the upstream body;
so does a digit-only identifier followed by one trailing newline (the
Python $ anchor admits it); every other identifier - and in particular
every other identifier containing a non-digit - fails with
InvalidIdentifier before any fetch; an identifier that resolves to the
empty string fails earlier, with AddressNotFound rather than
InvalidIdentifier. -/
theorem uprn_validation_amended (up : Upstream) (s : String) (pc hn : Option String)
    (ps hs : String) :
    (s ≠ "" → (∀ c ∈ s.data, c.isDigit) →
      get_collections up (some s) pc hn =
        (parse_collections (up.collectionsFor s)).mapError NHError.uncaught) ∧
    (∀ t : List Char, s.data = t ++ ['\n'] → t ≠ [] → (∀ c ∈ t, c.isDigit) →
      get_collections up (some s) pc hn =
        (parse_collections (up.collectionsFor s)).mapError NHError.uncaught) ∧
    (s ≠ "" → reMatchAllDigits s = false →
      get_collections up (some s) pc hn =
        .error (.invalidIdentifier ("Invalid UPRN format: " ++ s))) ∧
    (ps ≠ "" → hs ≠ "" →
      find_uprn (up.addressesFor (normalize_postcode ps)) hs = some "" →
      get_collections up none (some ps) (some hs) =
        .error (.addressNotFound ("Could not find address: " ++ hs ++ ", " ++ ps))) := by
  refine ⟨?_, ?_, ?_, ?_⟩
  · intro hs hd
    have hdata : s.data ≠ [] := by
      intro h
      exact hs (String.ext (by simpa using h))
    have hm : reMatchAllDigits s = true := (reMatchAllDigits_iff s).mpr (Or.inl ⟨hdata, hd⟩)
    have ht : optTruthy (some s) = true := by simp [optTruthy, hs]
    rcases hp : parse_collections (up.collectionsFor s) with e | evs <;>
      simp [get_collections, ht, hm, hp, Except.mapError, bind, Except.bind, pure, Except.pure]
  · intro t htl htne hall
    have hdata : s.data ≠ [] := by simp [htl]
    have hs : s ≠ "" := by
      intro h
      rw [h] at hdata
      exact hdata rfl
    have hm : reMatchAllDigits s = true :=
      (reMatchAllDigits_iff s).mpr (Or.inr ⟨t, htl, htne, hall⟩)
    have ht : optTruthy (some s) = true := by simp [optTruthy, hs]
    rcases hp : parse_collections (up.collectionsFor s) with e | evs <;>
      simp [get_collections, ht, hm, hp, Except.mapError, bind, Except.bind, pure, Except.pure]
  · intro hs hm
    have ht : optTruthy (some s) = true := by simp [optTruthy, hs]
    simp [get_collections, ht, hm, bind, Except.bind, pure, Except.pure]
  · intro hps hhs hfind
    have htp : optTruthy (some ps) = true := by simp [optTruthy, hps]
    have hth : optTruthy (some hs) = true := by simp [optTruthy, hhs]
    simp [get_collections, optTruthy, htp, hth, hfind, bind, Except.bind, pure, Except.pure]
    exact ⟨hps, hhs⟩

/-- Witness for the amended C2 at concrete inputs: a digits-only
identifier and a digits-plus-newline identifier both proceed to fetch
and parse, a mixed identifier fails with InvalidIdentifier, and a query
resolving to an empty identifier fails with AddressNotFound. -/
theorem uprn_validation_amended_witness :
    get_collections ⟨fun _ => [⟨"", "1 High Street", "SG61JF"⟩], fun _ => .obj []⟩
        (some "123456") none none =
      (parse_collections (.obj [])).mapError NHError.uncaught ∧
    get_collections ⟨fun _ => [⟨"", "1 High Street", "SG61JF"⟩], fun _ => .obj []⟩
        (some "123\n") none none =
      (parse_collections (.obj [])).mapError NHError.uncaught ∧
    get_collections ⟨fun _ => [⟨"", "1 High Street", "SG61JF"⟩], fun _ => .obj []⟩
        (some "abc123") none none =
      .error (.invalidIdentifier "Invalid UPRN format: abc123") ∧
    get_collections ⟨fun _ => [⟨"", "1 High Street", "SG61JF"⟩], fun _ => .obj []⟩
        none (some "SG6 1JF") (some "1") =
      .error (.addressNotFound "Could not find address: 1, SG6 1JF") :=
  ⟨(uprn_validation_amended ⟨fun _ => [⟨"", "1 High Street", "SG61JF"⟩], fun _ => .obj []⟩
      "123456" none none "x" "y").1 (by decide) (by decide),
   (uprn_validation_amended ⟨fun _ => [⟨"", "1 High Street", "SG61JF"⟩], fun _ => .obj []⟩
      "123\n" none none "x" "y").2.1 ['1', '2', '3'] (by decide) (by decide) (by decide),
   (uprn_validation_amended ⟨fun _ => [⟨"", "1 High Street", "SG61JF"⟩], fun _ => .obj []⟩
      "abc123" none none "x" "y").2.2.1 (by decide) (by decide),
   (uprn_validation_amended ⟨fun _ => [⟨"", "1 High Street", "SG61JF"⟩], fun _ => .obj []⟩
      "s" none none "SG6 1JF" "1").2.2.2 (by decide) (by decide) (by decide)⟩

/-- C3, counterexample: a slot whose value is not an object (here the
string "oops") raises an uncaught AttributeError that aborts the whole
parse and escalates out of get_collections as a request-level failure,
even though another slot is perfectly well-formed; the parser does not
skip the malformed slot and does not return the other slot's event. -/
theorem malformed_slot_cex :
    parse_collections (.obj [("wasteCollectionDates", .obj
      [("container1CollectionDetails", .str "oops"),
       ("container2CollectionDetails", .obj
         [("collectionDate", .str "2025-01-02T00:00:00"),
          ("containerDescription", .str "Recycling")])])]) =
      .error .attributeError ∧
    get_collections ⟨fun _ => [], fun _ => .obj [("wasteCollectionDates", .obj
      [("container1CollectionDetails", .str "oops"),
       ("container2CollectionDetails", .obj
         [("collectionDate", .str "2025-01-02T00:00:00"),
          ("containerDescription", .str "Recycling")])])]⟩ (some "123") none none =
      .error (.uncaught .attributeError) :=
  ⟨rfl, rfl⟩

/-- C3, amended: over well-shaped container slots (objects whose date and
description fields, when present, are strings), a slot whose date string
the fixed format cannot parse is skipped silently - the parse returns
exactly the events of the payload with that slot absent, without
raising; however a slot whose value is not an object (or whose
description is not a string) raises an uncaught AttributeError that
aborts the whole parse (the counterexample). -/
theorem malformed_slot_skip_amended
    (dfs fs : List (String × JVal)) (sv : Nat → Option ContainerData)
    (i : Nat) (c : ContainerData)
    (hwd : pyDictGet dfs "wasteCollectionDates" (.obj []) = .obj fs)
    (h : ∀ j ∈ slotIndices, SlotRep (pyDictGet fs (containerKey j) .null) (sv j))
    (hi : sv i = some c)
    (hbad : strptimeNH (c.date?.getD "") = none) :
    parse_collections (.obj dfs) =
      .ok (specParse (slotIndices.map (fun j => if j = i then none else sv j))) := by
  have h1 := parse_collections_rep dfs fs sv hwd h
  rw [h1]
  have hfm : (slotIndices.map sv).filterMap (fun c => c.bind specSlotEvent) =
      (slotIndices.map (fun j => if j = i then none else sv j)).filterMap
        (fun c => c.bind specSlotEvent) := by
    simp only [List.filterMap_map]
    apply List.filterMap_congr
    intro j hj
    by_cases hji : j = i
    · subst hji
      simp [hi, Function.comp, specSlotEvent_eq_none hbad]
    · simp [hji, Function.comp]
  simp only [specParse, hfm]

/-- Witness for the amended C3: slot 1 carries the unparsable date
"not-a-date" and is skipped; the parse still returns slot 2's event. -/
theorem malformed_slot_skip_amended_witness :
    parse_collections (.obj [("wasteCollectionDates", .obj
      [("container1CollectionDetails", .obj
         [("collectionDate", .str "not-a-date"),
          ("containerDescription", .str "Garden")]),
       ("container2CollectionDetails", .obj
         [("collectionDate", .str "2025-01-02T00:00:00"),
          ("containerDescription", .str "Recycling")])])]) =
      .ok (specParse (slotIndices.map (fun j =>
        if j = 1 then none
        else if j = 1 then some ⟨some "not-a-date", some "Garden"⟩
        else if j = 2 then some ⟨some "2025-01-02T00:00:00", some "Recycling"⟩
        else none))) :=
  malformed_slot_skip_amended
    [("wasteCollectionDates", .obj
      [("container1CollectionDetails", .obj
         [("collectionDate", .str "not-a-date"),
          ("containerDescription", .str "Garden")]),
       ("container2CollectionDetails", .obj
         [("collectionDate", .str "2025-01-02T00:00:00"),
          ("containerDescription", .str "Recycling")])])]
    [("container1CollectionDetails", .obj
       [("collectionDate", .str "not-a-date"),
        ("containerDescription", .str "Garden")]),
     ("container2CollectionDetails", .obj
       [("collectionDate", .str "2025-01-02T00:00:00"),
        ("containerDescription", .str "Recycling")])]
    (fun j => if j = 1 then some ⟨some "not-a-date", some "Garden"⟩
      else if j = 2 then some ⟨some "2025-01-02T00:00:00", some "Recycling"⟩
      else none)
    1 ⟨some "not-a-date", some "Garden"⟩
    rfl
    (by
      intro j hj
      simp only [slotIndices] at hj
      fin_cases hj <;> first | exact ⟨_, rfl, rfl, rfl⟩ | rfl)
    rfl
    rfl

/-- C4: over any collections payload whose eight container slots are
well-shaped, the parser examines exactly the slots container1..container8
(all other keys of the payload are unconstrained here and cannot affect
the result), produces per surviving slot exactly the event of the spec's
per-slot rule - absent slot skipped, empty date skipped, absent
description defaulting binType to "Unknown", binType case-insensitively
equal to "food caddy" excluded - stably sorted ascending by
collectionDate; a payload with every slot absent yields the empty list as
an ok, non-error outcome. -/
theorem parser_eight_slots_spec
    (dfs fs : List (String × JVal)) (sv : Nat → Option ContainerData)
    (hwd : pyDictGet dfs "wasteCollectionDates" (.obj []) = .obj fs)
    (h : ∀ i ∈ slotIndices, SlotRep (pyDictGet fs (containerKey i) .null) (sv i)) :
    parse_collections (.obj dfs) = .ok (specParse (slotIndices.map sv)) ∧
    (∀ out, parse_collections (.obj dfs) = .ok out →
      out.Pairwise (fun a b => dtLexLe a.collection_date b.collection_date)) ∧
    ((∀ i ∈ slotIndices, sv i = none) → parse_collections (.obj dfs) = .ok []) := by
  have h1 := parse_collections_rep dfs fs sv hwd h
  refine ⟨h1, ?_, ?_⟩
  · intro out hout
    rw [h1] at hout
    simp only [Except.ok.injEq] at hout
    subst hout
    have hpw : (specParse (slotIndices.map sv)).Pairwise
        (fun a b => dtLe a.collection_date b.collection_date = true) := by
      unfold specParse
      exact sortByDate_sorted _
    refine List.Pairwise.imp_of_mem ?_ hpw
    intro a b ha hb hle
    exact (dtLe_iff_dtLexLe (specParse_mem_inBounds ha) (specParse_mem_inBounds hb)).mp hle
  · intro hall
    rw [h1]
    have hfm : (slotIndices.map sv).filterMap (fun c => c.bind specSlotEvent) = [] := by
      simp only [List.filterMap_map]
      rw [List.filterMap_eq_nil_iff]
      intro j hj
      simp [hall j hj, Function.comp]
    simp [specParse, hfm, sortByDate]

/-- Witness for C4: slot 1 well-formed, slot 2 absent, slot 3 an empty
date, slot 4 with no description, slot 5 a food caddy, and two extra keys
(a ninth container and an unrelated field) that are ignored. -/
theorem parser_eight_slots_spec_witness :
    parse_collections (.obj [("wasteCollectionDates", .obj
      [("container1CollectionDetails", .obj
         [("collectionDate", .str "2025-03-04T00:00:00"),
          ("containerDescription", .str "General Waste")]),
       ("container3CollectionDetails", .obj [("collectionDate", .str "")]),
       ("container4CollectionDetails", .obj
         [("collectionDate", .str "2025-03-01T00:00:00")]),
       ("container5CollectionDetails", .obj
         [("collectionDate", .str "2025-03-02T00:00:00"),
          ("containerDescription", .str "Food Caddy")]),
       ("container9CollectionDetails", .str "garbage"),
       ("somethingElse", .num 3)])]) =
      .ok (specParse (slotIndices.map (fun j =>
        if j = 1 then some ⟨some "2025-03-04T00:00:00", some "General Waste"⟩
        else if j = 3 then some ⟨some "", none⟩
        else if j = 4 then some ⟨some "2025-03-01T00:00:00", none⟩
        else if j = 5 then some ⟨some "2025-03-02T00:00:00", some "Food Caddy"⟩
        else none))) :=
  (parser_eight_slots_spec
    [("wasteCollectionDates", .obj
      [("container1CollectionDetails", .obj
         [("collectionDate", .str "2025-03-04T00:00:00"),
          ("containerDescription", .str "General Waste")]),
       ("container3CollectionDetails", .obj [("collectionDate", .str "")]),
       ("container4CollectionDetails", .obj
         [("collectionDate", .str "2025-03-01T00:00:00")]),
       ("container5CollectionDetails", .obj
         [("collectionDate", .str "2025-03-02T00:00:00"),
          ("containerDescription", .str "Food Caddy")]),
       ("container9CollectionDetails", .str "garbage"),
       ("somethingElse", .num 3)])]
    [("container1CollectionDetails", .obj
       [("collectionDate", .str "2025-03-04T00:00:00"),
        ("containerDescription", .str "General Waste")]),
     ("container3CollectionDetails", .obj [("collectionDate", .str "")]),
     ("container4CollectionDetails", .obj
       [("collectionDate", .str "2025-03-01T00:00:00")]),
     ("container5CollectionDetails", .obj
       [("collectionDate", .str "2025-03-02T00:00:00"),
        ("containerDescription", .str "Food Caddy")]),
     ("container9CollectionDetails", .str "garbage"),
     ("somethingElse", .num 3)]
    (fun j =>
      if j = 1 then some ⟨some "2025-03-04T00:00:00", some "General Waste"⟩
      else if j = 3 then some ⟨some "", none⟩
      else if j = 4 then some ⟨some "2025-03-01T00:00:00", none⟩
      else if j = 5 then some ⟨some "2025-03-02T00:00:00", some "Food Caddy"⟩
      else none)
    rfl
    (by
      intro j hj
      simp only [slotIndices] at hj
      fin_cases hj <;> first | exact ⟨_, rfl, rfl, rfl⟩ | rfl)).1

/-- C5: whenever two surviving well-shaped slots i < j carry the same
collectionDate, the parser's output lists their two events in ascending
slot-index order: the pair forms a sublist of the sorted output (the
slots are examined in fixed order 1 through 8 and the sort is stable). -/
theorem parser_sort_stability
    (dfs fs : List (String × JVal)) (sv : Nat → Option ContainerData)
    (i j : Nat) (ci cj : ContainerData) (ei ej : BinCollection)
    (hwd : pyDictGet dfs "wasteCollectionDates" (.obj []) = .obj fs)
    (h : ∀ k ∈ slotIndices, SlotRep (pyDictGet fs (containerKey k) .null) (sv k))
    (h1i : 1 ≤ i) (hij : i < j) (hj8 : j ≤ 8)
    (hsvi : sv i = some ci) (hsvj : sv j = some cj)
    (hei : specSlotEvent ci = some ei) (hej : specSlotEvent cj = some ej)
    (hdate : ei.collection_date = ej.collection_date) :
    ∃ out, parse_collections (.obj dfs) = .ok out ∧ List.Sublist [ei, ej] out := by
  have h1 := parse_collections_rep dfs fs sv hwd h
  refine ⟨_, h1, ?_⟩
  have hsub : List.Sublist [i, j] slotIndices := pair_sublist_slotIndices h1i hij hj8
  have hfm : List.Sublist [ei, ej]
      (slotIndices.filterMap (fun k => (sv k).bind specSlotEvent)) := by
    have hf := List.Sublist.filterMap (fun k => (sv k).bind specSlotEvent) hsub
    simpa [hsvi, hsvj, hei, hej] using hf
  have hpair : ([ei, ej]).Pairwise
      (fun a b => dtLe a.collection_date b.collection_date = true) := by
    simp [hdate, dtLe]
  unfold specParse
  apply sortByDate_stable hpair
  simpa [List.filterMap_map, Function.comp] using hfm

/-- Witness for C5: slots 2 and 5 both collect on 2025-03-02; their events
appear in slot order in the sorted output. -/
theorem parser_sort_stability_witness :
    ∃ out,
      parse_collections (.obj [("wasteCollectionDates", .obj
        [("container2CollectionDetails", .obj
           [("collectionDate", .str "2025-03-02T00:00:00"),
            ("containerDescription", .str "Recycling")]),
         ("container5CollectionDetails", .obj
           [("collectionDate", .str "2025-03-02T00:00:00"),
            ("containerDescription", .str "Garden Waste")])])]) = .ok out ∧
      List.Sublist
        [⟨"Recycling", ⟨2025, 3, 2, 0, 0, 0⟩⟩, ⟨"Garden Waste", ⟨2025, 3, 2, 0, 0, 0⟩⟩]
        out :=
  parser_sort_stability
    [("wasteCollectionDates", .obj
      [("container2CollectionDetails", .obj
         [("collectionDate", .str "2025-03-02T00:00:00"),
          ("containerDescription", .str "Recycling")]),
       ("container5CollectionDetails", .obj
         [("collectionDate", .str "2025-03-02T00:00:00"),
          ("containerDescription", .str "Garden Waste")])])]
    [("container2CollectionDetails", .obj
       [("collectionDate", .str "2025-03-02T00:00:00"),
        ("containerDescription", .str "Recycling")]),
     ("container5CollectionDetails", .obj
       [("collectionDate", .str "2025-03-02T00:00:00"),
        ("containerDescription", .str "Garden Waste")])]
    (fun k => if k = 2 then some ⟨some "2025-03-02T00:00:00", some "Recycling"⟩
      else if k = 5 then some ⟨some "2025-03-02T00:00:00", some "Garden Waste"⟩
      else none)
    2 5
    ⟨some "2025-03-02T00:00:00", some "Recycling"⟩
    ⟨some "2025-03-02T00:00:00", some "Garden Waste"⟩
    ⟨"Recycling", ⟨2025, 3, 2, 0, 0, 0⟩⟩
    ⟨"Garden Waste", ⟨2025, 3, 2, 0, 0, 0⟩⟩
    rfl
    (by
      intro k hk
      simp only [slotIndices] at hk
      fin_cases hk <;> first | exact ⟨_, rfl, rfl, rfl⟩ | rfl)
    (by decide) (by decide) (by decide)
    rfl rfl
    (by decide) (by decide)
    rfl

/-- C7: with no identifier, a falsy postcode or house number fails with
the InvalidRequest message; with both present but the resolution scan
finding no match, the call fails with AddressNotFound, whose message
contains both the attempted house number and the attempted postcode. -/
theorem missing_params_and_not_found (up : Upstream) (pc hn : Option String)
    (ps hs : String) :
    (optTruthy pc = false ∨ optTruthy hn = false →
      get_collections up none pc hn =
        .error (.invalidRequest
          "Either UPRN or both postcode and house_number must be provided")) ∧
    (ps ≠ "" → hs ≠ "" →
      find_uprn (up.addressesFor (normalize_postcode ps)) hs = none →
      get_collections up none (some ps) (some hs) =
        .error (.addressNotFound ("Could not find address: " ++ hs ++ ", " ++ ps)) ∧
      strContains ("Could not find address: " ++ hs ++ ", " ++ ps) hs ∧
      strContains ("Could not find address: " ++ hs ++ ", " ++ ps) ps) := by
  constructor
  · intro hor
    have h0 : optTruthy (none : Option String) = false := by decide
    unfold get_collections
    rw [if_pos h0, if_pos hor]
    rfl
  · intro hps hhs hfind
    have htp : optTruthy (some ps) = true := by simp [optTruthy, hps]
    have hth : optTruthy (some hs) = true := by simp [optTruthy, hhs]
    refine ⟨?_,
      ⟨"Could not find address: ", ", " ++ ps, by simp [String.append_assoc]⟩,
      ⟨"Could not find address: " ++ hs ++ ", ", "", by simp⟩⟩
    simp [get_collections, optTruthy, htp, hth, hfind, bind, Except.bind, pure, Except.pure]
    exact ⟨hps, hhs⟩

/-- Witness for C7: a call with only a house number fails with
InvalidRequest; a resolution over an empty upstream address list fails
with AddressNotFound carrying "99" and "SG6 1JF" in the message. -/
theorem missing_params_and_not_found_witness :
    get_collections ⟨fun _ => [], fun _ => .obj []⟩ none none (some "1") =
      .error (.invalidRequest
        "Either UPRN or both postcode and house_number must be provided") ∧
    (get_collections ⟨fun _ => [], fun _ => .obj []⟩ none (some "SG6 1JF") (some "99") =
      .error (.addressNotFound ("Could not find address: " ++ "99" ++ ", " ++ "SG6 1JF")) ∧
      strContains ("Could not find address: " ++ "99" ++ ", " ++ "SG6 1JF") "99" ∧
      strContains ("Could not find address: " ++ "99" ++ ", " ++ "SG6 1JF") "SG6 1JF") :=
  ⟨(missing_params_and_not_found ⟨fun _ => [], fun _ => .obj []⟩ none (some "1") "x" "y").1
      (Or.inl rfl),
   (missing_params_and_not_found ⟨fun _ => [], fun _ => .obj []⟩ none none "SG6 1JF" "99").2
      (by decide) (by decide) rfl⟩

/-- Deleting a key from the cache dict leaves no binding for it. -/
theorem cacheLookup_erase {V : Type} (st : List (String × V × Int)) (k : String) :
    cacheLookup (cacheErase st k) k = none := by
  induction st with
  | nil => rfl
  | cons e rest ih =>
    rcases e with ⟨k', v, ts⟩
    by_cases hk : k' = k
    · simpa [cacheErase, List.filter_cons, hk] using ih
    · simpa [cacheErase, List.filter_cons, hk, cacheLookup] using ih

/-- A fresh hit returns the stored value and leaves the cache unchanged. -/
theorem simpleCache_get_hit {V : Type} (c : SimpleCache V) (k : String) (now : Int)
    (v : V) (ts : Int) (hl : cacheLookup c.cache k = some (v, ts))
    (hf : now - ts < c.ttl) : c.get k now = (some v, c) := by
  simp [SimpleCache.get, hl, hf]

/-- An expired entry is a miss and is deleted during the same get. -/
theorem simpleCache_get_expired {V : Type} (c : SimpleCache V) (k : String) (now : Int)
    (v : V) (ts : Int) (hl : cacheLookup c.cache k = some (v, ts))
    (hf : ¬ (now - ts < c.ttl)) :
    c.get k now = (none, ⟨c.ttl, cacheErase c.cache k⟩) := by
  simp [SimpleCache.get, hl, hf]

/-- An absent key is a miss and leaves the cache unchanged. -/
theorem simpleCache_get_absent {V : Type} (c : SimpleCache V) (k : String) (now : Int)
    (hl : cacheLookup c.cache k = none) : c.get k now = (none, c) := by
  simp [SimpleCache.get, hl]

/-- C8, counterexample: on a cache constructed with TTL zero, set followed
immediately by get (zero elapsed time, exactly as a nonnegative elapsed
time compares against a zero TTL in the code) misses instead of
returning the value just stored, because freshness requires the elapsed
time to be strictly below the TTL. -/
theorem cache_ttl_zero_cex :
    ((SimpleCache.set ⟨0, []⟩ "k" (7 : Nat) 0).get "k" 0).1 = none := rfl

/-- C8, amended: get returns the stored value exactly when the key is
present and now - storedAt < ttl; a present-but-expired entry is a miss
and is deleted during that same get; set places exactly the new entry
under the key (no stale residue), and a subsequent get within the window
returns it; set followed immediately by get returns the value just
stored provided the TTL is positive. -/
theorem cache_ttl_spec_amended {V : Type} (c : SimpleCache V) (k : String) (now : Int) :
    (∀ v : V, (c.get k now).1 = some v ↔
      ∃ ts, cacheLookup c.cache k = some (v, ts) ∧ now - ts < c.ttl) ∧
    (∀ (v : V) (ts : Int), cacheLookup c.cache k = some (v, ts) → c.ttl ≤ now - ts →
      (c.get k now).1 = none ∧ cacheLookup ((c.get k now).2).cache k = none) ∧
    (∀ (v : V) (t : Int), cacheLookup ((c.set k v t).cache) k = some (v, t)) ∧
    (∀ (v : V) (t t' : Int), t' - t < c.ttl → ((c.set k v t).get k t').1 = some v) ∧
    (0 < c.ttl → ∀ (v : V) (t : Int), ((c.set k v t).get k t).1 = some v) := by
  have hset : ∀ (v : V) (t : Int), cacheLookup ((c.set k v t).cache) k = some (v, t) := by
    intro v t
    simp [SimpleCache.set, cacheLookup]
  refine ⟨?_, ?_, hset, ?_, ?_⟩
  · intro v
    constructor
    · intro hv
      rcases hl : cacheLookup c.cache k with _ | ⟨w, ts⟩
      · rw [simpleCache_get_absent c k now hl] at hv
        simp at hv
      · by_cases hf : now - ts < c.ttl
        · rw [simpleCache_get_hit c k now w ts hl hf] at hv
          simp only [Option.some.injEq] at hv
          rcases hv with rfl
          exact ⟨ts, rfl, hf⟩
        · rw [simpleCache_get_expired c k now w ts hl hf] at hv
          simp at hv
    · rintro ⟨ts, hl, hf⟩
      rw [simpleCache_get_hit c k now v ts hl hf]
  · intro v ts hl hexp
    have hf : ¬ (now - ts < c.ttl) := by omega
    rw [simpleCache_get_expired c k now v ts hl hf]
    exact ⟨rfl, cacheLookup_erase c.cache k⟩
  · intro v t t' hf
    have hl := hset v t
    have hf' : t' - t < (c.set k v t).ttl := hf
    rw [simpleCache_get_hit (c.set k v t) k t' v t hl hf']
  · intro hpos v t
    have hl := hset v t
    have hf' : t - t < (c.set k v t).ttl := by
      show t - t < c.ttl
      omega
    rw [simpleCache_get_hit (c.set k v t) k t v t hl hf']

/-- Witness for the amended C8: a fresh hit, an expired entry deleted on
get, and set-then-get both within the window and immediately. -/
theorem cache_ttl_spec_amended_witness :
    ((SimpleCache.get ⟨10, [("k", (5 : Nat), 0)]⟩ "k" 50).1 = none ∧
      cacheLookup ((SimpleCache.get ⟨10, [("k", (5 : Nat), 0)]⟩ "k" 50).2).cache "k" =
        none) ∧
    ((SimpleCache.set ⟨10, []⟩ "k" (7 : Nat) 0).get "k" 3).1 = some 7 ∧
    ((SimpleCache.set ⟨10, []⟩ "k" (7 : Nat) 0).get "k" 0).1 = some 7 :=
  ⟨(cache_ttl_spec_amended ⟨10, [("k", (5 : Nat), 0)]⟩ "k" 50).2.1 5 0 rfl (by decide),
   (cache_ttl_spec_amended ⟨10, []⟩ "k" 0).2.2.2.1 7 0 3 (by decide),
   (cache_ttl_spec_amended ⟨10, []⟩ "k" 0).2.2.2.2 (by decide) 7 0⟩

/-- C9: get_next_collection applies the first-at-or-after-now scan to the
sequence get_collections produced: the result is none exactly when every
event's date is strictly before now, and a some result is the first
event of the sequence at or after now (everything before it in the
sorted sequence is strictly earlier). -/
theorem next_collection_first_upcoming (up : Upstream) (uprn pc hn : Option String)
    (now : PyDateTime) (ls : List BinCollection)
    (h : get_collections up uprn pc hn = .ok ls) :
    get_next_collection up uprn pc hn now = .ok (nextLoop now ls) ∧
    (nextLoop now ls = none ↔ ∀ c ∈ ls, dtLe now c.collection_date = false) ∧
    (∀ c, nextLoop now ls = some c →
      ∃ pre post, ls = pre ++ c :: post ∧
        (∀ x ∈ pre, dtLe now x.collection_date = false) ∧
        dtLe now c.collection_date = true) := by
  refine ⟨?_, nextLoop_eq_none_iff now ls, fun c hc => nextLoop_eq_some now ls c hc⟩
  simp [get_next_collection, h, bind, Except.bind, pure, Except.pure]

/-- Witness for C9: a concrete two-event schedule; seen from March 2025
the next collection is the scan's result over the parsed sequence. -/
theorem next_collection_first_upcoming_witness :
    get_next_collection
      ⟨fun _ => [], fun _ => .obj [("wasteCollectionDates", .obj
        [("container1CollectionDetails", .obj
           [("collectionDate", .str "2025-01-02T00:00:00"),
            ("containerDescription", .str "General Waste")]),
         ("container2CollectionDetails", .obj
           [("collectionDate", .str "2025-06-01T00:00:00"),
            ("containerDescription", .str "Recycling")])])]⟩
      (some "123") none none ⟨2025, 3, 1, 0, 0, 0⟩ =
      .ok (nextLoop ⟨2025, 3, 1, 0, 0, 0⟩
        [⟨"General Waste", ⟨2025, 1, 2, 0, 0, 0⟩⟩,
         ⟨"Recycling", ⟨2025, 6, 1, 0, 0, 0⟩⟩]) := by
  have hp := parse_collections_rep
    [("wasteCollectionDates", .obj
      [("container1CollectionDetails", .obj
         [("collectionDate", .str "2025-01-02T00:00:00"),
          ("containerDescription", .str "General Waste")]),
       ("container2CollectionDetails", .obj
         [("collectionDate", .str "2025-06-01T00:00:00"),
          ("containerDescription", .str "Recycling")])])]
    [("container1CollectionDetails", .obj
       [("collectionDate", .str "2025-01-02T00:00:00"),
        ("containerDescription", .str "General Waste")]),
     ("container2CollectionDetails", .obj
       [("collectionDate", .str "2025-06-01T00:00:00"),
        ("containerDescription", .str "Recycling")])]
    (fun j => if j = 1 then some ⟨some "2025-01-02T00:00:00", some "General Waste"⟩
      else if j = 2 then some ⟨some "2025-06-01T00:00:00", some "Recycling"⟩
      else none)
    rfl
    (by
      intro j hj
      simp only [slotIndices] at hj
      fin_cases hj <;> first | exact ⟨_, rfl, rfl, rfl⟩ | rfl)
  have hev : specParse (slotIndices.map
      (fun j => if j = 1 then some ⟨some "2025-01-02T00:00:00", some "General Waste"⟩
        else if j = 2 then some ⟨some "2025-06-01T00:00:00", some "Recycling"⟩
        else none)) =
      [⟨"General Waste", ⟨2025, 1, 2, 0, 0, 0⟩⟩,
       ⟨"Recycling", ⟨2025, 6, 1, 0, 0, 0⟩⟩] := by
    unfold specParse
    rw [show (slotIndices.map
      (fun j => if j = 1 then some ⟨some "2025-01-02T00:00:00", some "General Waste"⟩
        else if j = 2 then some ⟨some "2025-06-01T00:00:00", some "Recycling"⟩
        else none)).filterMap (fun c => c.bind specSlotEvent) =
      [⟨"General Waste", ⟨2025, 1, 2, 0, 0, 0⟩⟩,
       ⟨"Recycling", ⟨2025, 6, 1, 0, 0, 0⟩⟩] from by decide]
    exact sortByDate_of_sorted (by decide)
  have hgc : get_collections
      ⟨fun _ => [], fun _ => .obj [("wasteCollectionDates", .obj
        [("container1CollectionDetails", .obj
           [("collectionDate", .str "2025-01-02T00:00:00"),
            ("containerDescription", .str "General Waste")]),
         ("container2CollectionDetails", .obj
           [("collectionDate", .str "2025-06-01T00:00:00"),
            ("containerDescription", .str "Recycling")])])]⟩
      (some "123") none none =
      .ok [⟨"General Waste", ⟨2025, 1, 2, 0, 0, 0⟩⟩,
           ⟨"Recycling", ⟨2025, 6, 1, 0, 0, 0⟩⟩] := by
    rw [get_collections_fetch _ _ _ _ (by decide) (by decide), hp, hev]
    rfl
  exact (next_collection_first_upcoming _ (some "123") none none ⟨2025, 3, 1, 0, 0, 0⟩ _
    hgc).1

/-- C10: an explicitly supplied empty uprn behaves exactly like an absent
uprn: get_collections returns the same result on every input, and in
particular the missing-parameters InvalidRequest error (not the
InvalidIdentifier error) when postcode and house_number are also
missing. -/
theorem empty_uprn_as_absent (up : Upstream) (pc hn : Option String) :
    get_collections up (some "") pc hn = get_collections up none pc hn ∧
    get_collections up (some "") none none =
      Except.error (.invalidRequest
        "Either UPRN or both postcode and house_number must be provided") :=
  ⟨rfl, rfl⟩

end NorthHerts
